import Mathlib

/-!
# HashClash configuration headers

A verification development over the two C headers of the repository,
`config.h` and `lib/hashclash/config.h`.  The headers are embedded as their
text, line by line; their meaning is given by a small model of the C
preprocessor (comment removal, directive recognition, and the processing of
`#define`, `#undef`, `#ifdef`, `#ifndef`, `#else`, `#endif`), which yields the
table of macros a translation unit has after including a header.

The second part models, from the design document of the toolkit, the
collision-search engine (one birthday-search trial and the worker pool around
it), whose implementation is not among the repository's files.
-/

namespace HashClash

/-! ## The source text -/

/-- The text of `config.h`, one string per line (248 lines). -/
def config_h : List String := [
  "/* config.h.  Generated from config.h.in by configure.  */",
  "/* config.h.in.  Generated from configure.ac by autoheader.  */",
  "",
  "/* Define to 1 to support Advanced Bit Manipulation */",
  "/* #undef HAVE_ABM */",
  "",
  "/* Define to 1 to support Multi-Precision Add-Carry Instruction Extensions */",
  "/* #undef HAVE_ADX */",
  "",
  "/* Define to 1 to support Advanced Encryption Standard New Instruction Set",
  "   (AES-NI) */",
  "/* #undef HAVE_AES */",
  "",
  "/* Support Altivec instructions */",
  "/* #undef HAVE_ALTIVEC */",
  "",
  "/* Define to 1 to support Advanced Vector Extensions */",
  "/* #undef HAVE_AVX */",
  "",
  "/* Define to 1 to support Advanced Vector Extensions 2 */",
  "/* #undef HAVE_AVX2 */",
  "",
  "/* Define to 1 to support AVX-512 Byte and Word Instructions */",
  "/* #undef HAVE_AVX512_BW */",
  "",
  "/* Define to 1 to support AVX-512 Conflict Detection Instructions */",
  "/* #undef HAVE_AVX512_CD */",
  "",
  "/* Define to 1 to support AVX-512 Doubleword and Quadword Instructions */",
  "/* #undef HAVE_AVX512_DQ */",
  "",
  "/* Define to 1 to support AVX-512 Exponential & Reciprocal Instructions */",
  "/* #undef HAVE_AVX512_ER */",
  "",
  "/* Define to 1 to support AVX-512 Foundation Extensions */",
  "/* #undef HAVE_AVX512_F */",
  "",
  "/* Define to 1 to support AVX-512 Integer Fused Multiply Add Instructions */",
  "/* #undef HAVE_AVX512_IFMA */",
  "",
  "/* Define to 1 to support AVX-512 Conflict Prefetch Instructions */",
  "/* #undef HAVE_AVX512_PF */",
  "",
  "/* Define to 1 to support AVX-512 Vector Byte Manipulation Instructions */",
  "/* #undef HAVE_AVX512_VBMI */",
  "",
  "/* Define to 1 to support AVX-512 Vector Length Extensions */",
  "/* #undef HAVE_AVX512_VL */",
  "",
  "/* Define to 1 to support Bit Manipulation Instruction Set 1 */",
  "/* #undef HAVE_BMI1 */",
  "",
  "/* Define to 1 to support Bit Manipulation Instruction Set 2 */",
  "/* #undef HAVE_BMI2 */",
  "",
  "/* define if the Boost library is available */",
  "#define HAVE_BOOST /**/",
  "",
  "/* define if the Boost::Chrono library is available */",
  "#define HAVE_BOOST_CHRONO /**/",
  "",
  "/* define if the Boost::Date_Time library is available */",
  "#define HAVE_BOOST_DATE_TIME /**/",
  "",
  "/* define if the Boost::Filesystem library is available */",
  "#define HAVE_BOOST_FILESYSTEM /**/",
  "",
  "/* define if the Boost::IOStreams library is available */",
  "#define HAVE_BOOST_IOSTREAMS /**/",
  "",
  "/* define if the Boost::PROGRAM_OPTIONS library is available */",
  "#define HAVE_BOOST_PROGRAM_OPTIONS /**/",
  "",
  "/* define if the Boost::Serialization library is available */",
  "#define HAVE_BOOST_SERIALIZATION /**/",
  "",
  "/* define if the Boost::System library is available */",
  "#define HAVE_BOOST_SYSTEM /**/",
  "",
  "/* define if the Boost::Thread library is available */",
  "#define HAVE_BOOST_THREAD /**/",
  "",
  "/* define if CUDA is available */",
  "/* #undef HAVE_CUDA */",
  "",
  "/* define if the compiler supports basic C++11 syntax */",
  "#define HAVE_CXX11 1",
  "",
  "/* Define to 1 if you have the <dlfcn.h> header file. */",
  "#define HAVE_DLFCN_H 1",
  "",
  "/* Define to 1 to support Fused Multiply-Add Extensions 3 */",
  "/* #undef HAVE_FMA3 */",
  "",
  "/* Define to 1 to support Fused Multiply-Add Extensions 4 */",
  "/* #undef HAVE_FMA4 */",
  "",
  "/* Define to 1 if you have the <inttypes.h> header file. */",
  "#define HAVE_INTTYPES_H 1",
  "",
  "/* Define to 1 if you have the `bz2' library (-lbz2). */",
  "#define HAVE_LIBBZ2 1",
  "",
  "/* Define to 1 if you have the `z' library (-lz). */",
  "#define HAVE_LIBZ 1",
  "",
  "/* Define to 1 to support Multimedia Extensions */",
  "/* #undef HAVE_MMX */",
  "",
  "/* Define to 1 to support Memory Protection Extensions */",
  "/* #undef HAVE_MPX */",
  "",
  "/* Define to 1 to support Prefetch Vector Data Into Caches WT1 */",
  "/* #undef HAVE_PREFETCHWT1 */",
  "",
  "/* Define if you have POSIX threads libraries and header files. */",
  "#define HAVE_PTHREAD 1",
  "",
  "/* Have PTHREAD_PRIO_INHERIT. */",
  "#define HAVE_PTHREAD_PRIO_INHERIT 1",
  "",
  "/* Define to 1 to support Digital Random Number Generator */",
  "/* #undef HAVE_RDRND */",
  "",
  "/* Define to 1 to support Secure Hash Algorithm Extension */",
  "/* #undef HAVE_SHA */",
  "",
  "/* Define to 1 to support Streaming SIMD Extensions */",
  "/* #undef HAVE_SSE */",
  "",
  "/* Define to 1 to support Streaming SIMD Extensions */",
  "/* #undef HAVE_SSE2 */",
  "",
  "/* Define to 1 to support Streaming SIMD Extensions 3 */",
  "/* #undef HAVE_SSE3 */",
  "",
  "/* Define to 1 to support Streaming SIMD Extensions 4.1 */",
  "/* #undef HAVE_SSE4_1 */",
  "",
  "/* Define to 1 to support Streaming SIMD Extensions 4.2 */",
  "/* #undef HAVE_SSE4_2 */",
  "",
  "/* Define to 1 to support AMD Streaming SIMD Extensions 4a */",
  "/* #undef HAVE_SSE4a */",
  "",
  "/* Define to 1 to support Supplemental Streaming SIMD Extensions 3 */",
  "/* #undef HAVE_SSSE3 */",
  "",
  "/* Define to 1 if you have the <stdint.h> header file. */",
  "#define HAVE_STDINT_H 1",
  "",
  "/* Define to 1 if you have the <stdio.h> header file. */",
  "#define HAVE_STDIO_H 1",
  "",
  "/* Define to 1 if you have the <stdlib.h> header file. */",
  "#define HAVE_STDLIB_H 1",
  "",
  "/* Define to 1 if you have the <strings.h> header file. */",
  "#define HAVE_STRINGS_H 1",
  "",
  "/* Define to 1 if you have the <string.h> header file. */",
  "#define HAVE_STRING_H 1",
  "",
  "/* Define to 1 if you have the <sys/stat.h> header file. */",
  "#define HAVE_SYS_STAT_H 1",
  "",
  "/* Define to 1 if you have the <sys/types.h> header file. */",
  "#define HAVE_SYS_TYPES_H 1",
  "",
  "/* Define to 1 if you have the <unistd.h> header file. */",
  "#define HAVE_UNISTD_H 1",
  "",
  "/* Support VSX instructions */",
  "/* #undef HAVE_VSX */",
  "",
  "/* Define to 1 to support eXtended Operations Extensions */",
  "/* #undef HAVE_XOP */",
  "",
  "/* Define to the sub-directory where libtool stores uninstalled libraries. */",
  "#define LT_OBJDIR \".libs/\"",
  "",
  "/* Name of package */",
  "#define PACKAGE \"hashclash\"",
  "",
  "/* Define to the address where bug reports for this package should be sent. */",
  "#define PACKAGE_BUGREPORT \"marc@marc-stevens.nl\"",
  "",
  "/* Define to the full name of this package. */",
  "#define PACKAGE_NAME \"HashClash\"",
  "",
  "/* Define to the full name and version of this package. */",
  "#define PACKAGE_STRING \"HashClash 1.0.0\"",
  "",
  "/* Define to the one symbol short name of this package. */",
  "#define PACKAGE_TARNAME \"hashclash\"",
  "",
  "/* Define to the home page for this package. */",
  "#define PACKAGE_URL \"https://github.com/cr-marcstevens/hashclash\"",
  "",
  "/* Define to the version of this package. */",
  "#define PACKAGE_VERSION \"1.0.0\"",
  "",
  "/* Define to necessary symbol if this constant uses a non-standard name on",
  "   your system. */",
  "/* #undef PTHREAD_CREATE_JOINABLE */",
  "",
  "/* Define to 1 if all of the C90 standard headers exist (not just the ones",
  "   required in a freestanding environment). This macro is provided for",
  "   backward compatibility; new code need not use it. */",
  "#define STDC_HEADERS 1",
  "",
  "/* Version number of package */",
  "#define VERSION \"1.0.0\"",
  "",
  "/* Define for Solaris 2.5.1 so the uint32_t typedef from <sys/synch.h>,",
  "   <pthread.h>, or <semaphore.h> is not used. If the typedef were allowed, the",
  "   #define below would cause a syntax error. */",
  "/* #undef _UINT32_T */",
  "",
  "/* Define for Solaris 2.5.1 so the uint64_t typedef from <sys/synch.h>,",
  "   <pthread.h>, or <semaphore.h> is not used. If the typedef were allowed, the",
  "   #define below would cause a syntax error. */",
  "/* #undef _UINT64_T */",
  "",
  "/* Define for Solaris 2.5.1 so the uint8_t typedef from <sys/synch.h>,",
  "   <pthread.h>, or <semaphore.h> is not used. If the typedef were allowed, the",
  "   #define below would cause a syntax error. */",
  "/* #undef _UINT8_T */",
  "",
  "/* Define to `unsigned int' if <sys/types.h> does not define. */",
  "/* #undef size_t */",
  "",
  "/* Define to the type of an unsigned integer type of width exactly 16 bits if",
  "   such a type exists and the standard includes do not define it. */",
  "/* #undef uint16_t */",
  "",
  "/* Define to the type of an unsigned integer type of width exactly 32 bits if",
  "   such a type exists and the standard includes do not define it. */",
  "/* #undef uint32_t */",
  "",
  "/* Define to the type of an unsigned integer type of width exactly 64 bits if",
  "   such a type exists and the standard includes do not define it. */",
  "/* #undef uint64_t */",
  "",
  "/* Define to the type of an unsigned integer type of width exactly 8 bits if",
  "   such a type exists and the standard includes do not define it. */",
  "/* #undef uint8_t */",
  ""
]

/-- The text of `lib/hashclash/config.h`, one string per line (322 lines). -/
def lib_hashclash_config_h : List String := [
  "#ifndef _LIB_HASHCLASH_CONFIG_H",
  "#define _LIB_HASHCLASH_CONFIG_H 1",
  " ",
  "/* lib/hashclash/config.h. Generated automatically at end of configure. */",
  "/* config.h.  Generated from config.h.in by configure.  */",
  "/* config.h.in.  Generated from configure.ac by autoheader.  */",
  "",
  "/* Define to 1 to support Advanced Bit Manipulation */",
  "/* #undef HAVE_ABM */",
  "",
  "/* Define to 1 to support Multi-Precision Add-Carry Instruction Extensions */",
  "/* #undef HAVE_ADX */",
  "",
  "/* Define to 1 to support Advanced Encryption Standard New Instruction Set",
  "   (AES-NI) */",
  "/* #undef HAVE_AES */",
  "",
  "/* Support Altivec instructions */",
  "/* #undef HAVE_ALTIVEC */",
  "",
  "/* Define to 1 to support Advanced Vector Extensions */",
  "/* #undef HAVE_AVX */",
  "",
  "/* Define to 1 to support Advanced Vector Extensions 2 */",
  "/* #undef HAVE_AVX2 */",
  "",
  "/* Define to 1 to support AVX-512 Byte and Word Instructions */",
  "/* #undef HAVE_AVX512_BW */",
  "",
  "/* Define to 1 to support AVX-512 Conflict Detection Instructions */",
  "/* #undef HAVE_AVX512_CD */",
  "",
  "/* Define to 1 to support AVX-512 Doubleword and Quadword Instructions */",
  "/* #undef HAVE_AVX512_DQ */",
  "",
  "/* Define to 1 to support AVX-512 Exponential & Reciprocal Instructions */",
  "/* #undef HAVE_AVX512_ER */",
  "",
  "/* Define to 1 to support AVX-512 Foundation Extensions */",
  "/* #undef HAVE_AVX512_F */",
  "",
  "/* Define to 1 to support AVX-512 Integer Fused Multiply Add Instructions */",
  "/* #undef HAVE_AVX512_IFMA */",
  "",
  "/* Define to 1 to support AVX-512 Conflict Prefetch Instructions */",
  "/* #undef HAVE_AVX512_PF */",
  "",
  "/* Define to 1 to support AVX-512 Vector Byte Manipulation Instructions */",
  "/* #undef HAVE_AVX512_VBMI */",
  "",
  "/* Define to 1 to support AVX-512 Vector Length Extensions */",
  "/* #undef HAVE_AVX512_VL */",
  "",
  "/* Define to 1 to support Bit Manipulation Instruction Set 1 */",
  "/* #undef HAVE_BMI1 */",
  "",
  "/* Define to 1 to support Bit Manipulation Instruction Set 2 */",
  "/* #undef HAVE_BMI2 */",
  "",
  "/* define if the Boost library is available */",
  "#ifndef HASHCLASH_HAVE_BOOST",
  "#define HASHCLASH_HAVE_BOOST /**/",
  "#endif",
  "",
  "/* define if the Boost::Chrono library is available */",
  "#ifndef HASHCLASH_HAVE_BOOST_CHRONO",
  "#define HASHCLASH_HAVE_BOOST_CHRONO /**/",
  "#endif",
  "",
  "/* define if the Boost::Date_Time library is available */",
  "#ifndef HASHCLASH_HAVE_BOOST_DATE_TIME",
  "#define HASHCLASH_HAVE_BOOST_DATE_TIME /**/",
  "#endif",
  "",
  "/* define if the Boost::Filesystem library is available */",
  "#ifndef HASHCLASH_HAVE_BOOST_FILESYSTEM",
  "#define HASHCLASH_HAVE_BOOST_FILESYSTEM /**/",
  "#endif",
  "",
  "/* define if the Boost::IOStreams library is available */",
  "#ifndef HASHCLASH_HAVE_BOOST_IOSTREAMS",
  "#define HASHCLASH_HAVE_BOOST_IOSTREAMS /**/",
  "#endif",
  "",
  "/* define if the Boost::PROGRAM_OPTIONS library is available */",
  "#ifndef HASHCLASH_HAVE_BOOST_PROGRAM_OPTIONS",
  "#define HASHCLASH_HAVE_BOOST_PROGRAM_OPTIONS /**/",
  "#endif",
  "",
  "/* define if the Boost::Serialization library is available */",
  "#ifndef HASHCLASH_HAVE_BOOST_SERIALIZATION",
  "#define HASHCLASH_HAVE_BOOST_SERIALIZATION /**/",
  "#endif",
  "",
  "/* define if the Boost::System library is available */",
  "#ifndef HASHCLASH_HAVE_BOOST_SYSTEM",
  "#define HASHCLASH_HAVE_BOOST_SYSTEM /**/",
  "#endif",
  "",
  "/* define if the Boost::Thread library is available */",
  "#ifndef HASHCLASH_HAVE_BOOST_THREAD",
  "#define HASHCLASH_HAVE_BOOST_THREAD /**/",
  "#endif",
  "",
  "/* define if CUDA is available */",
  "/* #undef HAVE_CUDA */",
  "",
  "/* define if the compiler supports basic C++11 syntax */",
  "#ifndef HASHCLASH_HAVE_CXX11",
  "#define HASHCLASH_HAVE_CXX11 1",
  "#endif",
  "",
  "/* Define to 1 if you have the <dlfcn.h> header file. */",
  "#ifndef HASHCLASH_HAVE_DLFCN_H",
  "#define HASHCLASH_HAVE_DLFCN_H 1",
  "#endif",
  "",
  "/* Define to 1 to support Fused Multiply-Add Extensions 3 */",
  "/* #undef HAVE_FMA3 */",
  "",
  "/* Define to 1 to support Fused Multiply-Add Extensions 4 */",
  "/* #undef HAVE_FMA4 */",
  "",
  "/* Define to 1 if you have the <inttypes.h> header file. */",
  "#ifndef HASHCLASH_HAVE_INTTYPES_H",
  "#define HASHCLASH_HAVE_INTTYPES_H 1",
  "#endif",
  "",
  "/* Define to 1 if you have the `bz2' library (-lbz2). */",
  "#ifndef HASHCLASH_HAVE_LIBBZ2",
  "#define HASHCLASH_HAVE_LIBBZ2 1",
  "#endif",
  "",
  "/* Define to 1 if you have the `z' library (-lz). */",
  "#ifndef HASHCLASH_HAVE_LIBZ",
  "#define HASHCLASH_HAVE_LIBZ 1",
  "#endif",
  "",
  "/* Define to 1 to support Multimedia Extensions */",
  "/* #undef HAVE_MMX */",
  "",
  "/* Define to 1 to support Memory Protection Extensions */",
  "/* #undef HAVE_MPX */",
  "",
  "/* Define to 1 to support Prefetch Vector Data Into Caches WT1 */",
  "/* #undef HAVE_PREFETCHWT1 */",
  "",
  "/* Define if you have POSIX threads libraries and header files. */",
  "#ifndef HASHCLASH_HAVE_PTHREAD",
  "#define HASHCLASH_HAVE_PTHREAD 1",
  "#endif",
  "",
  "/* Have PTHREAD_PRIO_INHERIT. */",
  "#ifndef HASHCLASH_HAVE_PTHREAD_PRIO_INHERIT",
  "#define HASHCLASH_HAVE_PTHREAD_PRIO_INHERIT 1",
  "#endif",
  "",
  "/* Define to 1 to support Digital Random Number Generator */",
  "/* #undef HAVE_RDRND */",
  "",
  "/* Define to 1 to support Secure Hash Algorithm Extension */",
  "/* #undef HAVE_SHA */",
  "",
  "/* Define to 1 to support Streaming SIMD Extensions */",
  "/* #undef HAVE_SSE */",
  "",
  "/* Define to 1 to support Streaming SIMD Extensions */",
  "/* #undef HAVE_SSE2 */",
  "",
  "/* Define to 1 to support Streaming SIMD Extensions 3 */",
  "/* #undef HAVE_SSE3 */",
  "",
  "/* Define to 1 to support Streaming SIMD Extensions 4.1 */",
  "/* #undef HAVE_SSE4_1 */",
  "",
  "/* Define to 1 to support Streaming SIMD Extensions 4.2 */",
  "/* #undef HAVE_SSE4_2 */",
  "",
  "/* Define to 1 to support AMD Streaming SIMD Extensions 4a */",
  "/* #undef HAVE_SSE4a */",
  "",
  "/* Define to 1 to support Supplemental Streaming SIMD Extensions 3 */",
  "/* #undef HAVE_SSSE3 */",
  "",
  "/* Define to 1 if you have the <stdint.h> header file. */",
  "#ifndef HASHCLASH_HAVE_STDINT_H",
  "#define HASHCLASH_HAVE_STDINT_H 1",
  "#endif",
  "",
  "/* Define to 1 if you have the <stdio.h> header file. */",
  "#ifndef HASHCLASH_HAVE_STDIO_H",
  "#define HASHCLASH_HAVE_STDIO_H 1",
  "#endif",
  "",
  "/* Define to 1 if you have the <stdlib.h> header file. */",
  "#ifndef HASHCLASH_HAVE_STDLIB_H",
  "#define HASHCLASH_HAVE_STDLIB_H 1",
  "#endif",
  "",
  "/* Define to 1 if you have the <strings.h> header file. */",
  "#ifndef HASHCLASH_HAVE_STRINGS_H",
  "#define HASHCLASH_HAVE_STRINGS_H 1",
  "#endif",
  "",
  "/* Define to 1 if you have the <string.h> header file. */",
  "#ifndef HASHCLASH_HAVE_STRING_H",
  "#define HASHCLASH_HAVE_STRING_H 1",
  "#endif",
  "",
  "/* Define to 1 if you have the <sys/stat.h> header file. */",
  "#ifndef HASHCLASH_HAVE_SYS_STAT_H",
  "#define HASHCLASH_HAVE_SYS_STAT_H 1",
  "#endif",
  "",
  "/* Define to 1 if you have the <sys/types.h> header file. */",
  "#ifndef HASHCLASH_HAVE_SYS_TYPES_H",
  "#define HASHCLASH_HAVE_SYS_TYPES_H 1",
  "#endif",
  "",
  "/* Define to 1 if you have the <unistd.h> header file. */",
  "#ifndef HASHCLASH_HAVE_UNISTD_H",
  "#define HASHCLASH_HAVE_UNISTD_H 1",
  "#endif",
  "",
  "/* Support VSX instructions */",
  "/* #undef HAVE_VSX */",
  "",
  "/* Define to 1 to support eXtended Operations Extensions */",
  "/* #undef HAVE_XOP */",
  "",
  "/* Define to the sub-directory where libtool stores uninstalled libraries. */",
  "#ifndef HASHCLASH_LT_OBJDIR",
  "#define HASHCLASH_LT_OBJDIR \".libs/\"",
  "#endif",
  "",
  "/* Name of package */",
  "#ifndef HASHCLASH_PACKAGE",
  "#define HASHCLASH_PACKAGE \"hashclash\"",
  "#endif",
  "",
  "/* Define to the address where bug reports for this package should be sent. */",
  "#ifndef HASHCLASH_PACKAGE_BUGREPORT",
  "#define HASHCLASH_PACKAGE_BUGREPORT \"marc@marc-stevens.nl\"",
  "#endif",
  "",
  "/* Define to the full name of this package. */",
  "#ifndef HASHCLASH_PACKAGE_NAME",
  "#define HASHCLASH_PACKAGE_NAME \"HashClash\"",
  "#endif",
  "",
  "/* Define to the full name and version of this package. */",
  "#ifndef HASHCLASH_PACKAGE_STRING",
  "#define HASHCLASH_PACKAGE_STRING \"HashClash 1.0.0\"",
  "#endif",
  "",
  "/* Define to the one symbol short name of this package. */",
  "#ifndef HASHCLASH_PACKAGE_TARNAME",
  "#define HASHCLASH_PACKAGE_TARNAME \"hashclash\"",
  "#endif",
  "",
  "/* Define to the home page for this package. */",
  "#ifndef HASHCLASH_PACKAGE_URL",
  "#define HASHCLASH_PACKAGE_URL \"https://github.com/cr-marcstevens/hashclash\"",
  "#endif",
  "",
  "/* Define to the version of this package. */",
  "#ifndef HASHCLASH_PACKAGE_VERSION",
  "#define HASHCLASH_PACKAGE_VERSION \"1.0.0\"",
  "#endif",
  "",
  "/* Define to necessary symbol if this constant uses a non-standard name on",
  "   your system. */",
  "/* #undef PTHREAD_CREATE_JOINABLE */",
  "",
  "/* Define to 1 if all of the C90 standard headers exist (not just the ones",
  "   required in a freestanding environment). This macro is provided for",
  "   backward compatibility; new code need not use it. */",
  "#ifndef HASHCLASH_STDC_HEADERS",
  "#define HASHCLASH_STDC_HEADERS 1",
  "#endif",
  "",
  "/* Version number of package */",
  "#ifndef HASHCLASH_VERSION",
  "#define HASHCLASH_VERSION \"1.0.0\"",
  "#endif",
  "",
  "/* Define for Solaris 2.5.1 so the uint32_t typedef from <sys/synch.h>,",
  "   <pthread.h>, or <semaphore.h> is not used. If the typedef were allowed, the",
  "   #define below would cause a syntax error. */",
  "/* #undef _UINT32_T */",
  "",
  "/* Define for Solaris 2.5.1 so the uint64_t typedef from <sys/synch.h>,",
  "   <pthread.h>, or <semaphore.h> is not used. If the typedef were allowed, the",
  "   #define below would cause a syntax error. */",
  "/* #undef _UINT64_T */",
  "",
  "/* Define for Solaris 2.5.1 so the uint8_t typedef from <sys/synch.h>,",
  "   <pthread.h>, or <semaphore.h> is not used. If the typedef were allowed, the",
  "   #define below would cause a syntax error. */",
  "/* #undef _UINT8_T */",
  "",
  "/* Define to `unsigned int' if <sys/types.h> does not define. */",
  "/* #undef size_t */",
  "",
  "/* Define to the type of an unsigned integer type of width exactly 16 bits if",
  "   such a type exists and the standard includes do not define it. */",
  "/* #undef uint16_t */",
  "",
  "/* Define to the type of an unsigned integer type of width exactly 32 bits if",
  "   such a type exists and the standard includes do not define it. */",
  "/* #undef uint32_t */",
  "",
  "/* Define to the type of an unsigned integer type of width exactly 64 bits if",
  "   such a type exists and the standard includes do not define it. */",
  "/* #undef uint64_t */",
  "",
  "/* Define to the type of an unsigned integer type of width exactly 8 bits if",
  "   such a type exists and the standard includes do not define it. */",
  "/* #undef uint8_t */",
  " ",
  "/* once: _LIB_HASHCLASH_CONFIG_H */",
  "#endif"
]

/-! ## Lexical structure: comments and literals -/

/-- State of the comment scanner between two characters of the source. -/
inductive LexMode
  | code        -- ordinary program text
  | slash       -- a `/` has been read in program text and not yet emitted
  | block       -- inside a block comment
  | blockStar   -- inside a block comment, right after a `*`
  | line        -- inside a line comment
  | str         -- inside a string literal
  | strEsc      -- inside a string literal, right after a backslash
  | chr         -- inside a character literal
  | chrEsc      -- inside a character literal, right after a backslash
  deriving DecidableEq, Repr

/-- The scanner's mode at the start of the next line: only a block comment
stays open across a line end. -/
def LexMode.atLineEnd : LexMode → LexMode
  | .block => .block
  | .blockStar => .block
  | _ => .code

/-- Remove the comments of one line.  A comment is replaced by one space;
the text of string and character literals is kept as it is. -/
def stripComments : LexMode → List Char → List Char × LexMode
  | m, [] => (if m = .slash then ['/'] else [], m.atLineEnd)
  | .code, c :: cs =>
      if c = '/' then stripComments .slash cs
      else if c = '"' then
        let r := stripComments .str cs; (c :: r.1, r.2)
      else if c = '\'' then
        let r := stripComments .chr cs; (c :: r.1, r.2)
      else
        let r := stripComments .code cs; (c :: r.1, r.2)
  | .slash, c :: cs =>
      if c = '*' then
        let r := stripComments .block cs; (' ' :: r.1, r.2)
      else if c = '/' then
        let r := stripComments .line cs; (' ' :: r.1, r.2)
      else if c = '"' then
        let r := stripComments .str cs; ('/' :: c :: r.1, r.2)
      else if c = '\'' then
        let r := stripComments .chr cs; ('/' :: c :: r.1, r.2)
      else
        let r := stripComments .code cs; ('/' :: c :: r.1, r.2)
  | .block, c :: cs =>
      if c = '*' then stripComments .blockStar cs else stripComments .block cs
  | .blockStar, c :: cs =>
      if c = '/' then stripComments .code cs
      else if c = '*' then stripComments .blockStar cs
      else stripComments .block cs
  | .line, _ :: cs => stripComments .line cs
  | .str, c :: cs =>
      let r := stripComments (if c = '\\' then .strEsc else if c = '"' then .code else .str) cs
      (c :: r.1, r.2)
  | .strEsc, c :: cs =>
      let r := stripComments .str cs; (c :: r.1, r.2)
  | .chr, c :: cs =>
      let r := stripComments (if c = '\\' then .chrEsc else if c = '\'' then .code else .chr) cs
      (c :: r.1, r.2)
  | .chrEsc, c :: cs =>
      let r := stripComments .chr cs; (c :: r.1, r.2)

/-- Remove the comments of a whole file, line by line, carrying an open
block comment over to the next line. -/
def stripFile : LexMode → List String → List (List Char)
  | _, [] => []
  | m, l :: ls =>
      let r := stripComments m l.data
      r.1 :: stripFile r.2 ls

/-! ## Directives -/

/-- White space inside a line. -/
def isBlank (c : Char) : Bool := c = ' ' || c = '\t'

/-- A character of an identifier. -/
def isIdentChar (c : Char) : Bool := c.isAlphanum || c = '_'

/-- Drop white space at the end of a line. -/
def dropTrailingBlanks (cs : List Char) : List Char :=
  (cs.reverse.dropWhile isBlank).reverse

/-- One line of a header after comment removal. -/
inductive Line
  | blank
  | text (cs : String)
  | define (name body : String)
  | undef (name : String)
  | ifdef (name : String)
  | ifndef (name : String)
  | otherwise
  | endif
  | unsupported (directive : String)
  deriving DecidableEq, Repr

/-- Read the directive named `kw` whose arguments are `args` (leading blanks
already dropped).  An object-like `#define NAME body` keeps the body with the
blanks around it removed; a function-like macro is not supported. -/
def parseDirective (kw : String) (args : List Char) : Line :=
  let name := String.mk (args.takeWhile isIdentChar)
  let rest := args.dropWhile isIdentChar
  if kw = "define" then
    if name = "" then .unsupported kw
    else match rest with
      | '(' :: _ => .unsupported kw
      | _ => .define name (String.mk (dropTrailingBlanks (rest.dropWhile isBlank)))
  else if kw = "undef" then .undef name
  else if kw = "ifdef" then .ifdef name
  else if kw = "ifndef" then .ifndef name
  else if kw = "else" then .otherwise
  else if kw = "endif" then .endif
  else .unsupported kw

/-- Classify one comment-free line. -/
def parseLine (cs : List Char) : Line :=
  match cs.dropWhile isBlank with
  | [] => .blank
  | '#' :: r =>
      let r := r.dropWhile isBlank
      parseDirective (String.mk (r.takeWhile isIdentChar))
        ((r.dropWhile isIdentChar).dropWhile isBlank)
  | c :: r => .text (String.mk (c :: r))

/-- The lines of a header, comments removed and directives recognised. -/
def parseFile (src : List String) : List Line :=
  (stripFile .code src).map parseLine

/-- The directives of a header: its lines without the blank ones. -/
def directives (src : List String) : List Line :=
  (parseFile src).filter (fun l => l ≠ .blank)

/-! ## Macro tables and conditional inclusion -/

/-- The macro table of a translation unit: every defined macro with its
replacement text, in the order of definition. -/
abbrev Env := List (String × String)

/-- The replacement text of macro `n`, when it is defined. -/
def Env.value : Env → String → Option String
  | [], _ => none
  | (m, b) :: env, n => if m = n then some b else Env.value env n

/-- Whether macro `n` is defined. -/
def Env.defined (env : Env) (n : String) : Bool := (env.value n).isSome

/-- An open conditional group. -/
structure Group where
  /-- the lines around the group are processed -/
  outer : Bool
  /-- the lines of the current branch are processed -/
  now : Bool
  /-- the group's `#else` has been read -/
  seenElse : Bool
  deriving DecidableEq, Repr

/-- State of the preprocessor between two lines. -/
structure PPState where
  env : Env
  /-- the open conditional groups, innermost first -/
  groups : List Group
  deriving DecidableEq, Repr

/-- Whether the lines at the current position are processed or skipped. -/
def PPState.active (st : PPState) : Bool :=
  match st.groups with
  | [] => true
  | g :: _ => g.now

/-- Process one line.  `none` is a translation error: a macro redefined with
another replacement text, an `#else` or `#endif` without its group, a
directive outside the model. -/
def step (st : PPState) : Line → Option PPState
  | .blank => some st
  | .text _ => some st
  | .define n b =>
      if st.active then
        match st.env.value n with
        | none => some { st with env := st.env ++ [(n, b)] }
        | some b' => if b' = b then some st else none
      else some st
  | .undef n =>
      if st.active then some { st with env := st.env.filter (fun p => p.1 ≠ n) }
      else some st
  | .ifdef n =>
      some { st with groups := ⟨st.active, st.active && st.env.defined n, false⟩ :: st.groups }
  | .ifndef n =>
      some { st with groups := ⟨st.active, st.active && !st.env.defined n, false⟩ :: st.groups }
  | .otherwise =>
      match st.groups with
      | [] => none
      | g :: gs =>
          if g.seenElse then none
          else some { st with groups := ⟨g.outer, g.outer && !g.now, true⟩ :: gs }
  | .endif =>
      match st.groups with
      | [] => none
      | _ :: gs => some { st with groups := gs }
  | .unsupported _ => none

/-- Process the lines of a file in order. -/
def run : PPState → List Line → Option PPState
  | st, [] => some st
  | st, l :: ls =>
      match step st l with
      | none => none
      | some st' => run st' ls

/-- Include the header `src` into a translation unit whose macro table is
`env`: the macro table afterwards.  A conditional group left open at the end
of the file is an error. -/
def preprocess (env : Env) (src : List String) : Option Env :=
  match run ⟨env, []⟩ (parseFile src) with
  | some ⟨env', []⟩ => some env'
  | _ => none

/-- The macros a header defines when it is the first thing a translation
unit includes. -/
def macros (src : List String) : Option Env := preprocess [] src

/-- Name of the macro that `lib/hashclash/config.h` exports for the macro
`n` of `config.h`. -/
def exported (n : String) : String := "HASHCLASH_" ++ n

/-- The include guard of `lib/hashclash/config.h`. -/
def includeGuard : String := "_LIB_HASHCLASH_CONFIG_H"

/-- The text of a C string literal without escape sequences: what stands
between its two double quotes. -/
def stringLiteral (tok : String) : Option String :=
  match tok.data with
  | '"' :: cs =>
      match cs.reverse with
      | '"' :: rs => if rs.all (fun c => c ≠ '"' && c ≠ '\\') then some (String.mk rs.reverse) else none
      | _ => none
  | _ => none

/-- The string a header defines macro `n` to be, when it defines it as a
string literal. -/
def macroString (src : List String) (n : String) : Option String :=
  match macros src with
  | none => none
  | some env =>
      match env.value n with
      | none => none
      | some tok => stringLiteral tok

/-- The macros of `config.h`, as the table the preprocessor builds from its
text (see `macros_config_h`). -/
def config_h_macros : Env := [
  ("HAVE_BOOST", ""),
  ("HAVE_BOOST_CHRONO", ""),
  ("HAVE_BOOST_DATE_TIME", ""),
  ("HAVE_BOOST_FILESYSTEM", ""),
  ("HAVE_BOOST_IOSTREAMS", ""),
  ("HAVE_BOOST_PROGRAM_OPTIONS", ""),
  ("HAVE_BOOST_SERIALIZATION", ""),
  ("HAVE_BOOST_SYSTEM", ""),
  ("HAVE_BOOST_THREAD", ""),
  ("HAVE_CXX11", "1"),
  ("HAVE_DLFCN_H", "1"),
  ("HAVE_INTTYPES_H", "1"),
  ("HAVE_LIBBZ2", "1"),
  ("HAVE_LIBZ", "1"),
  ("HAVE_PTHREAD", "1"),
  ("HAVE_PTHREAD_PRIO_INHERIT", "1"),
  ("HAVE_STDINT_H", "1"),
  ("HAVE_STDIO_H", "1"),
  ("HAVE_STDLIB_H", "1"),
  ("HAVE_STRINGS_H", "1"),
  ("HAVE_STRING_H", "1"),
  ("HAVE_SYS_STAT_H", "1"),
  ("HAVE_SYS_TYPES_H", "1"),
  ("HAVE_UNISTD_H", "1"),
  ("LT_OBJDIR", "\".libs/\""),
  ("PACKAGE", "\"hashclash\""),
  ("PACKAGE_BUGREPORT", "\"marc@marc-stevens.nl\""),
  ("PACKAGE_NAME", "\"HashClash\""),
  ("PACKAGE_STRING", "\"HashClash 1.0.0\""),
  ("PACKAGE_TARNAME", "\"hashclash\""),
  ("PACKAGE_URL", "\"https://github.com/cr-marcstevens/hashclash\""),
  ("PACKAGE_VERSION", "\"1.0.0\""),
  ("STDC_HEADERS", "1"),
  ("VERSION", "\"1.0.0\"")
]

/-- The table that mirrors `env` under the `HASHCLASH_` names, behind the
include guard. -/
def mirror (env : Env) : Env :=
  (includeGuard, "1") :: env.map (fun p => (exported p.1, p.2))

/-- The `#define` lines of a header, whether or not a conditional group
around them is taken. -/
def definesOf (src : List String) : Env :=
  (parseFile src).filterMap (fun l =>
    match l with
    | .define n b => some (n, b)
    | _ => none)

/-- Define `n` as `b` unless `n` is defined already. -/
def Env.defineIfUndefined (env : Env) (n b : String) : Env :=
  if env.defined n then env else env ++ [(n, b)]

/-- Define every macro of `tbl` that is not defined already, in order. -/
def Env.defineAll (env : Env) : Env → Env
  | [] => env
  | (n, b) :: tbl => Env.defineAll (env.defineIfUndefined n b) tbl

/-- The lines `#ifndef n`, `#define n b`, `#endif` for every entry of a
table, in order. -/
def guardedDefines : Env → List Line
  | [] => []
  | (n, b) :: tbl => .ifndef n :: .define n b :: .endif :: guardedDefines tbl

/-- The macros of `config.h` under their exported names. -/
def exportedTable : Env := config_h_macros.map (fun p => (exported p.1, p.2))

/-- The macro table after `lib/hashclash/config.h` has been included into a
translation unit whose table is `env`: nothing changes when the include guard
is defined, otherwise the guard and every exported macro not yet defined are
added. -/
def included (env : Env) : Env :=
  if env.defined includeGuard then env
  else Env.defineAll (env ++ [(includeGuard, "1")]) exportedTable

/-! ## The collision-search engine

The engine's implementation is not among the repository's files.  The
definitions of this section follow the design document: its data model (§3),
`BirthdaySearchEngine.runTrial` (§4.4) and `WorkerPool.search` (§4.5). -/

/-- Modelled from the spec: the `BitCondition` enum of §3, "the required
relation between two same-position bits across a differential pair"; its
implementation is missing. -/
inductive BitCondition
  | unconstrained
  | bothZero
  | bothOne
  | equal
  | differ
  | fixedInFirstBranch
  | fixedInSecondBranch
  | contradictory
  deriving DecidableEq, Repr

/-- Modelled from the spec: the `StepCondition` of §3, a "mapping from bit
position to BitCondition, for each tracked word"; an entry is a tracked
word's index, a bit position and the condition there. -/
structure StepCondition where
  entries : List ((Nat × Nat) × BitCondition)
  deriving DecidableEq, Repr

/-- Modelled from the spec: the condition at a bit position of a tracked
word; "bit positions not present are implicitly unconstrained" (§3). -/
def StepCondition.cond (c : StepCondition) (word bit : Nat) : BitCondition :=
  match c.entries.find? (fun e => e.1 = (word, bit)) with
  | some e => e.2
  | none => .unconstrained

/-- Modelled from the spec: the `DifferentialPath` of §3, an "ordered
sequence of StepCondition, one per round". -/
abbrev DifferentialPath := List StepCondition

/-- Modelled from the spec: the target compression function of §6, "round
transition rules" handed to the core from outside.  Words are natural
numbers, a chaining value and a message block are lists of words. -/
structure Target where
  /-- the round count -/
  rounds : Nat
  /-- the width of a word in bits -/
  wordWidth : Nat
  /-- the chaining value the first branch starts from -/
  iv : List Nat
  /-- the transition of round `k`: chaining words and message block to the
  chaining words after the round -/
  round : Nat → List Nat → List Nat → List Nat

/-- Modelled from the spec: the seed differential of §6, "which words/bits
differ between the two message branches before round 0", as one mask per
chaining word and per message word. -/
structure SeedDifferential where
  chaining : List Nat
  message : List Nat
  deriving DecidableEq, Repr

/-- Modelled from the spec: the second branch of a differential pair (§6),
the words of the first with the bits of the seed differential flipped; a
word without a mask stays. -/
def xorWords : List Nat → List Nat → List Nat
  | [], _ => []
  | w :: ws, [] => w :: ws
  | w :: ws, d :: ds => (w ^^^ d) :: xorWords ws ds

/-- Modelled from the spec: what a search engine is set up with, the target
and seed differential of §6 and the path it shares read-only with every
worker (§3).  §3 names the eight bit conditions but not the relation each
one requires of a pair of bits, so that relation, `sat`, is part of the
set-up. -/
structure Engine where
  target : Target
  seed : SeedDifferential
  path : DifferentialPath
  sat : BitCondition → Bool → Bool → Bool

/-- Modelled from the spec: the chaining value the second branch starts
from, the first branch's with the seed differential applied (§6). -/
def Engine.iv2 (E : Engine) : List Nat := xorWords E.target.iv E.seed.chaining

/-- Modelled from the spec: the formula of one message bit in a
`MessageTemplate` (§3), "either a free random bit, a fixed constant, or a
function of other free bits". A derived bit is a function of the values of
the template's free bits, listed in the order the free bits occur. -/
inductive BitFormula
  | free
  | const (b : Bool)
  | derived (f : List Bool → Bool)

/-- Modelled from the spec: the `MessageTemplate` of §3, per message word
the formulas of its bits, bit position 0 first. -/
structure MessageTemplate where
  words : List (List BitFormula)

/-- Modelled from the spec: the number of free random bits (§3) among some
formulas. -/
def freeBitsIn : List BitFormula → Nat
  | [] => 0
  | .free :: fs => freeBitsIn fs + 1
  | _ :: fs => freeBitsIn fs

/-- Modelled from the spec: the number of free bits of a template (§3, §8
"a template with zero free bits"). -/
def MessageTemplate.freeCount (t : MessageTemplate) : Nat :=
  (t.words.map freeBitsIn).sum

/-- Modelled from the spec: the bits of one template word (§3): `all` are the values of the template's free bits,
`next` those not yet used by an earlier free bit.  Returns the word's bits
and the free bits still unused. -/
def evalBits (all : List Bool) : List BitFormula → List Bool → List Bool × List Bool
  | [], next => ([], next)
  | .free :: fs, next =>
      let r := evalBits all fs next.tail
      (next.headD false :: r.1, r.2)
  | .const b :: fs, next =>
      let r := evalBits all fs next
      (b :: r.1, r.2)
  | .derived f :: fs, next =>
      let r := evalBits all fs next
      (f all :: r.1, r.2)

/-- Modelled from the spec: the word with the given bits, bit position 0
first (§3, "bit position (0..word-width−1)"). -/
def wordOfBits : List Bool → Nat
  | [] => 0
  | b :: bs => (if b then 1 else 0) + 2 * wordOfBits bs

/-- Modelled from the spec: the words of a template under an assignment of
its free bits (§4.4). -/
def evalWords (all : List Bool) : List (List BitFormula) → List Bool → List Nat
  | [], _ => []
  | w :: ws, next =>
      let r := evalBits all w next
      wordOfBits r.1 :: evalWords all ws r.2

/-- Modelled from the spec: the message block a template evaluates to under
an assignment of its free bits (§4.4, "evaluate the MessageTemplate"). -/
def MessageTemplate.eval (t : MessageTemplate) (bits : List Bool) : List Nat :=
  evalWords bits t.words bits

/-- Modelled from the spec: the random source of §4.4, an endless stream of
bits. -/
abbrev RandomStream := Nat → Bool

/-- Modelled from the spec: "draw the free bits from the random source"
(§4.4), its first `n` bits. -/
def draw (n : Nat) (rng : RandomStream) : List Bool := (List.range n).map rng

/-- Modelled from the spec: the random source after `n` bits have been
drawn (§4.4). -/
def advance (n : Nat) (rng : RandomStream) : RandomStream := fun i => rng (i + n)

/-- Modelled from the spec: the `CollisionResult` of §3, "the two concrete
message blocks and resulting chaining-variable pair". -/
structure CollisionResult where
  block1 : List Nat
  block2 : List Nat
  out1 : List Nat
  out2 : List Nat
  deriving DecidableEq, Repr

/-- Modelled from the spec: the contract of `runTrial` (§4.4),
`{success: CollisionResult} | {partial: matchedRoundCount} | {failure}`. -/
inductive TrialOutcome
  | success (r : CollisionResult)
  | partialMatch (matchedRoundCount : Nat)
  | failure
  deriving DecidableEq, Repr

/-- Modelled from the spec: the check of §4.4 that "the realized bit
differences match" a step condition, between the tracked words of the two
branches: at every bit position below the word width of every tracked word,
the condition there is satisfied by the two bits. -/
def StepCondition.holdsOn (sat : BitCondition → Bool → Bool → Bool) (width : Nat)
    (c : StepCondition) (w1 w2 : List Nat) : Bool :=
  (List.range (max w1.length w2.length)).all (fun i =>
    (List.range width).all (fun j =>
      sat (c.cond i j) ((w1.getD i 0).testBit j) ((w2.getD i 0).testBit j)))

/-- Modelled from the spec: what the round-by-round simulation of a trial
(§4.4) ends with, the first mismatching round or the chaining words after
the last round. -/
inductive Simulation
  | mismatch (matched : Nat)
  | allMatched (s1 s2 : List Nat)
  deriving DecidableEq, Repr

/-- Modelled from the spec: the simulation of §4.4, "simulate the
compression function round-by-round checking that the realized bit
differences match every StepCondition; stop at the first mismatching round".
`todo` rounds remain, `k` is the next round, `s1` and `s2` are the chaining
words of the two branches.  The tracked words of a round are the chaining
words after it followed by the message words. -/
def simulate (E : Engine) (m1 m2 : List Nat) : Nat → Nat → List Nat → List Nat → Simulation
  | 0, _, s1, s2 => .allMatched s1 s2
  | todo + 1, k, s1, s2 =>
      let t1 := E.target.round k s1 m1
      let t2 := E.target.round k s2 m2
      if (E.path.getD k ⟨[]⟩).holdsOn E.sat E.target.wordWidth (t1 ++ m1) (t2 ++ m2) then
        simulate E m1 m2 todo (k + 1) t1 t2
      else .mismatch k

/-- Modelled from the spec: `BirthdaySearchEngine.runTrial` (§4.4): "draw
the free bits from the random source, evaluate the MessageTemplate to
produce one concrete message block and its paired differential counterpart,
then simulate the compression function round-by-round [...]; stop at the
first mismatching round [...] or, if all rounds match, emit `success` with
the two message blocks and resulting output words".  A trial that matches
no round is a `failure`. -/
def runTrial (E : Engine) (t : MessageTemplate) (rng : RandomStream) : TrialOutcome :=
  let m1 := t.eval (draw t.freeCount rng)
  let m2 := xorWords m1 E.seed.message
  match simulate E m1 m2 E.target.rounds 0 E.target.iv E.iv2 with
  | .allMatched o1 o2 => .success ⟨m1, m2, o1, o2⟩
  | .mismatch 0 => .failure
  | .mismatch (k + 1) => .partialMatch (k + 1)

/-- Modelled from the spec: the chaining words of a branch after `n` rounds
of the target compression function (§6) on block `m`, started from `s`,
with no condition checked. -/
def stateAfter (T : Target) (s m : List Nat) : Nat → List Nat
  | 0 => s
  | n + 1 => T.round n (stateAfter T s m n) m

/-- Modelled from the spec: the target compression function (§6), the
chaining words after all its rounds. -/
def compress (T : Target) (s m : List Nat) : List Nat := stateAfter T s m T.rounds

/-- Modelled from the spec: the tracked words of a branch at round `k` (§3,
"chaining variables, message words"): the chaining words after the round,
followed by the message words. -/
def trackedWords (T : Target) (s m : List Nat) (k : Nat) : List Nat :=
  stateAfter T s m (k + 1) ++ m

/-- Modelled from the spec: the `SearchState` of §3, "counters (trials
attempted, partial-match depth reached) [...] and an atomic found-flag". -/
structure SearchState where
  trials : Nat
  bestDepth : Nat
  found : Bool
  deriving DecidableEq, Repr

/-- Modelled from the spec: the contract of `WorkerPool.search` (§4.5),
`CollisionResult | exhausted`. -/
inductive SearchOutcome
  | found (r : CollisionResult)
  | exhausted
  deriving DecidableEq, Repr

/-- Modelled from the spec: the workers' random sources (§4.5, "an
independent random stream" each) with that of worker `w` replaced. -/
def setStream (streams : Nat → RandomStream) (w : Nat) (s : RandomStream) :
    Nat → RandomStream :=
  fun v => if v = w then s else streams v

/-- Modelled from the spec: the trial loops of `WorkerPool.search` (§4.5),
interleaved trial by trial: `sched n` names the worker whose trial is the
`n`-th of the run, each worker draws from its own random source, and the
run ends with the first `success` or when `budget` trials have been made. -/
def searchLoop (E : Engine) (t : MessageTemplate) (workerCount : Nat) (sched : Nat → Nat) :
    Nat → SearchState → (Nat → RandomStream) → SearchOutcome × SearchState
  | 0, st, _ => (.exhausted, st)
  | budget + 1, st, streams =>
      let w := sched st.trials % workerCount
      match runTrial E t (streams w) with
      | .success r => (.found r, { st with trials := st.trials + 1, found := true })
      | .partialMatch d =>
          searchLoop E t workerCount sched budget
            { st with trials := st.trials + 1, bestDepth := max st.bestDepth d }
            (setStream streams w (advance t.freeCount (streams w)))
      | .failure =>
          searchLoop E t workerCount sched budget
            { st with trials := st.trials + 1 }
            (setStream streams w (advance t.freeCount (streams w)))

/-- Modelled from the spec: `WorkerPool.search(template, workerCount,
trialBudget)` (§4.5): "starts `workerCount` independent trial loops, each
repeatedly invoking `runTrial` with an independent random stream until one
of: (a) a worker reports `success` [...]; (b) the trial or time budget is
exhausted — returns `exhausted`".  Returned with the outcome is the search
state at the end.  A pool of no workers makes no trial. -/
def search (E : Engine) (t : MessageTemplate) (workerCount budget : Nat)
    (streams : Nat → RandomStream) (sched : Nat → Nat) : SearchOutcome × SearchState :=
  if workerCount = 0 then (.exhausted, ⟨0, 0, false⟩)
  else searchLoop E t workerCount sched budget ⟨0, 0, false⟩ streams

/-! ### A toy instance -/

/-- A two-round toy compression function on two chaining words of four
bits: round `k` moves the second word to the front and adds to the first
word the second one xored with message word `k`. -/
def toyTarget : Target where
  rounds := 2
  wordWidth := 4
  iv := [3, 5]
  round := fun k s m => [s.getD 1 0, (s.getD 0 0 + (s.getD 1 0 ^^^ m.getD k 0)) % 16]

/-- A relation for the toy instance: the first five conditions read by
their names, `contradictory` never satisfied, the two `fixed-in-…-branch`
conditions (which the toy path does not use) without requirement. -/
def toySat : BitCondition → Bool → Bool → Bool
  | .unconstrained, _, _ => true
  | .bothZero, a, b => !a && !b
  | .bothOne, a, b => a && b
  | .equal, a, b => a == b
  | .differ, a, b => a != b
  | .fixedInFirstBranch, _, _ => true
  | .fixedInSecondBranch, _, _ => true
  | .contradictory, _, _ => false

/-- A path for the toy target: tracked words 0 and 1 are the chaining
words, 2 and 3 the message words. -/
def toyPath : DifferentialPath := [
  ⟨[((0, 0), .bothOne), ((0, 1), .equal), ((1, 0), .differ), ((1, 3), .differ),
    ((2, 0), .differ), ((3, 1), .bothOne)]⟩,
  ⟨[((0, 0), .differ), ((0, 3), .differ), ((1, 0), .differ), ((1, 1), .bothOne),
    ((1, 2), .differ)]⟩
]

/-- The toy engine: the two branches differ in bit 0 of message word 0. -/
def toyEngine : Engine where
  target := toyTarget
  seed := ⟨[0, 0], [1, 0]⟩
  path := toyPath
  sat := toySat

/-- A template with one free bit (bit 0 of word 0) and one bit derived from
it (bit 0 of word 1 is its negation). -/
def toyTemplate : MessageTemplate where
  words := [[.free, .const false, .const false, .const false],
            [.derived (fun bs => !bs.headD false), .const true, .const false, .const false]]

/-- A template without free bits: the block `[1, 2]`. -/
def toyFixedTemplate : MessageTemplate where
  words := [[.const true, .const false, .const false, .const false],
            [.const false, .const true, .const false, .const false]]

/-- The collision result of the toy instance. -/
def toyResult : CollisionResult := ⟨[1, 2], [0, 2], [7, 10], [8, 15]⟩

/-! # Theorems -/

/-! ## Facts about macro tables -/

theorem exported_data (n : String) : (exported n).data = "HASHCLASH_".data ++ n.data := rfl

theorem exported_injective {a b : String} (h : exported a = exported b) : a = b := by
  have h1 : (exported a).data = (exported b).data := by rw [h]
  rw [exported_data, exported_data] at h1
  have h2 := List.append_cancel_left h1
  cases a; cases b; simp_all

theorem includeGuard_ne_exported (n : String) : includeGuard ≠ exported n := by
  intro h
  have h1 : includeGuard.data = (exported n).data := by rw [h]
  rw [exported_data] at h1
  have h2 : includeGuard.data.head? = ("HASHCLASH_".data ++ n.data).head? := congrArg List.head? h1
  have h3 : includeGuard.data.head? = some '_' := rfl
  have h4 : ("HASHCLASH_".data ++ n.data).head? = some 'H' := rfl
  rw [h3, h4] at h2
  exact absurd h2 (by decide)

theorem value_map_exported (env : Env) (n : String) :
    Env.value (env.map (fun p => (exported p.1, p.2))) (exported n) = env.value n := by
  induction env with
  | nil => rfl
  | cons p env ih =>
      obtain ⟨m, b⟩ := p
      simp only [List.map, Env.value]
      by_cases hm : m = n
      · subst hm; simp
      · have : exported m ≠ exported n := fun h => hm (exported_injective h)
        simp [hm, this, ih]

theorem value_map_exported_some (env : Env) (m v : String)
    (h : Env.value (env.map (fun p => (exported p.1, p.2))) m = some v) :
    ∃ n, m = exported n ∧ env.value n = some v := by
  induction env with
  | nil => simp [Env.value] at h
  | cons p env ih =>
      obtain ⟨k, b⟩ := p
      simp only [List.map, Env.value] at h
      by_cases hk : exported k = m
      · rw [if_pos hk] at h
        exact ⟨k, hk.symm, by simp [Env.value, h]⟩
      · rw [if_neg hk] at h
        obtain ⟨n, hn, hv⟩ := ih h
        refine ⟨n, hn, ?_⟩
        have : k ≠ n := by
          intro hkn; apply hk; rw [hn, hkn]
        simp [Env.value, this, hv]

theorem value_mirror_exported (env : Env) (n : String) :
    (mirror env).value (exported n) = env.value n := by
  have h := includeGuard_ne_exported n
  simp only [mirror, Env.value, if_neg h]
  exact value_map_exported env n

theorem value_mirror_some (env : Env) (m v : String) (h : (mirror env).value m = some v) :
    (m = includeGuard ∧ v = "1") ∨ ∃ n, m = exported n ∧ env.value n = some v := by
  simp only [mirror, Env.value] at h
  by_cases hg : includeGuard = m
  · rw [if_pos hg] at h
    exact Or.inl ⟨hg.symm, by simpa using h.symm⟩
  · rw [if_neg hg] at h
    exact Or.inr (value_map_exported_some env m v h)

theorem value_some_mem (env : Env) (n v : String) (h : env.value n = some v) : (n, v) ∈ env := by
  induction env with
  | nil => simp [Env.value] at h
  | cons p env ih =>
      obtain ⟨k, b⟩ := p
      simp only [Env.value] at h
      by_cases hk : k = n
      · rw [if_pos hk] at h
        have hb : b = v := by simpa using h
        rw [hk, hb]; exact List.mem_cons_self _ _
      · rw [if_neg hk] at h
        exact List.mem_cons_of_mem _ (ih h)

/-! ## The two headers -/

set_option maxRecDepth 100000 in
theorem macros_config_h : macros config_h = some config_h_macros := by
  decide!

set_option maxRecDepth 100000 in
theorem macros_lib_hashclash_config_h :
    macros lib_hashclash_config_h = some (mirror config_h_macros) := by
  decide!

set_option maxRecDepth 100000 in
theorem definesOf_config_h : definesOf config_h = config_h_macros := by
  decide!

set_option maxRecDepth 100000 in
theorem definesOf_lib_hashclash_config_h :
    definesOf lib_hashclash_config_h = mirror config_h_macros := by
  decide!

set_option maxRecDepth 100000 in
theorem config_h_names_not_mirrored :
    config_h_macros.all (fun p => (mirror config_h_macros).value p.1 = none) = true := by
  decide!

/-- C9: `lib/hashclash/config.h` is the `HASHCLASH_`-prefixed mirror of
`config.h`.  Included first in a translation unit, both headers are
translated without error, and the macro tables they leave are exactly their
`#define` lines.  Every macro `n` that `config.h` defines with value `v` is
defined by `lib/hashclash/config.h` as `HASHCLASH_n` with the same value `v`;
every macro of `lib/hashclash/config.h` is its include guard
`_LIB_HASHCLASH_CONFIG_H` or such a `HASHCLASH_n`; a macro that `config.h`
leaves undefined has no `HASHCLASH_` counterpart; and no macro of `config.h`
is exported under its unprefixed name. -/
theorem lib_config_h_is_prefixed_mirror :
    ∃ cfg lib : Env,
      macros config_h = some cfg ∧ macros lib_hashclash_config_h = some lib ∧
      definesOf config_h = cfg ∧ definesOf lib_hashclash_config_h = lib ∧
      (∀ n v, cfg.value n = some v → lib.value (exported n) = some v) ∧
      (∀ m v, lib.value m = some v →
        m = includeGuard ∨ ∃ n, m = exported n ∧ cfg.value n = some v) ∧
      (∀ n, cfg.value n = none → lib.value (exported n) = none) ∧
      (∀ n, cfg.defined n = true → lib.defined n = false) := by
  refine ⟨config_h_macros, mirror config_h_macros, macros_config_h,
    macros_lib_hashclash_config_h, definesOf_config_h, definesOf_lib_hashclash_config_h,
    ?_, ?_, ?_, ?_⟩
  · intro n v h
    rw [value_mirror_exported]; exact h
  · intro m v h
    rcases value_mirror_some _ m v h with ⟨hg, _⟩ | hx
    · exact Or.inl hg
    · exact Or.inr hx
  · intro n h
    rw [value_mirror_exported]; exact h
  · intro n h
    unfold Env.defined at h ⊢
    cases hv : config_h_macros.value n with
    | none => rw [hv] at h; simp at h
    | some v =>
        have hmem := value_some_mem _ n v hv
        have hall := List.all_eq_true.mp config_h_names_not_mirrored (n, v) hmem
        have hnone : (mirror config_h_macros).value n = none := by simpa using hall
        rw [hnone]; rfl

/-- C10: the package identity macros of `config.h` agree with each other.
`PACKAGE_NAME`, `PACKAGE_VERSION` and `PACKAGE_TARNAME` are string literals,
`PACKAGE_STRING` is the name, one space and the version, `VERSION` is the
version, and `PACKAGE` is the tar name. -/
theorem package_identity_consistent :
    ∃ name version tarname : String,
      macroString config_h "PACKAGE_NAME" = some name ∧
      macroString config_h "PACKAGE_VERSION" = some version ∧
      macroString config_h "PACKAGE_TARNAME" = some tarname ∧
      macroString config_h "PACKAGE_STRING" = some (name ++ " " ++ version) ∧
      macroString config_h "VERSION" = some version ∧
      macroString config_h "PACKAGE" = some tarname := by
  refine ⟨"HashClash", "1.0.0", "hashclash", ?_, ?_, ?_, ?_, ?_, ?_⟩ <;>
    simp only [macroString, macros_config_h] <;> decide

/-! ## Inclusion into an arbitrary translation unit -/

theorem run_filter_blank (ls : List Line) (st : PPState) :
    run st (ls.filter (fun l => l ≠ .blank)) = run st ls := by
  induction ls generalizing st with
  | nil => rfl
  | cons l ls ih =>
      by_cases hl : l = .blank
      · subst hl
        rw [List.filter_cons_of_neg (by simp)]
        simp only [run, step]
        exact ih st
      · rw [List.filter_cons_of_pos (by simpa using hl)]
        simp only [run]
        cases step st l with
        | none => rfl
        | some st' => exact ih st'

theorem run_append (a b : List Line) (st : PPState) :
    run st (a ++ b) = (run st a).bind (fun st' => run st' b) := by
  induction a generalizing st with
  | nil => rfl
  | cons l a ih =>
      simp only [List.cons_append, run]
      cases step st l with
      | none => rfl
      | some st' => exact ih st'

theorem value_none_of_not_defined {env : Env} {n : String} (h : env.defined n = false) :
    env.value n = none := by
  unfold Env.defined at h
  cases hv : env.value n with
  | none => rfl
  | some v => rw [hv] at h; simp at h

theorem active_push (env : Env) (g : Group) (gs : List Group) :
    PPState.active ⟨env, g :: gs⟩ = g.now := rfl

theorem run_guarded_active (n b : String) (rest : List Line) (env : Env) (gs : List Group)
    (h : PPState.active ⟨env, gs⟩ = true) :
    run ⟨env, gs⟩ (.ifndef n :: .define n b :: .endif :: rest)
      = run ⟨env.defineIfUndefined n b, gs⟩ rest := by
  cases hd : env.defined n with
  | true =>
      simp only [run, step, h, hd, active_push, Bool.not_true, Bool.and_false,
        Env.defineIfUndefined, if_true]
      simp
  | false =>
      have hv := value_none_of_not_defined hd
      simp only [run, step, h, hd, hv, active_push, Bool.not_false, Bool.and_true,
        Env.defineIfUndefined, if_true]
      simp

theorem run_guarded_skipped (n b : String) (rest : List Line) (env : Env) (gs : List Group)
    (h : PPState.active ⟨env, gs⟩ = false) :
    run ⟨env, gs⟩ (.ifndef n :: .define n b :: .endif :: rest) = run ⟨env, gs⟩ rest := by
  simp only [run, step, h, active_push, Bool.false_and]
  simp

theorem active_env_irrelevant (env env' : Env) (gs : List Group) :
    PPState.active ⟨env, gs⟩ = PPState.active ⟨env', gs⟩ := rfl

theorem run_guardedDefines_active (tbl : Env) (env : Env) (gs : List Group)
    (h : PPState.active ⟨env, gs⟩ = true) :
    run ⟨env, gs⟩ (guardedDefines tbl) = some ⟨Env.defineAll env tbl, gs⟩ := by
  induction tbl generalizing env with
  | nil => rfl
  | cons p tbl ih =>
      obtain ⟨n, b⟩ := p
      show run ⟨env, gs⟩ (.ifndef n :: .define n b :: .endif :: guardedDefines tbl) = _
      rw [run_guarded_active n b _ env gs h]
      exact ih _ ((active_env_irrelevant _ env gs).trans h)

theorem run_guardedDefines_skipped (tbl : Env) (env : Env) (gs : List Group)
    (h : PPState.active ⟨env, gs⟩ = false) :
    run ⟨env, gs⟩ (guardedDefines tbl) = some ⟨env, gs⟩ := by
  induction tbl with
  | nil => rfl
  | cons p tbl ih =>
      obtain ⟨n, b⟩ := p
      show run ⟨env, gs⟩ (.ifndef n :: .define n b :: .endif :: guardedDefines tbl) = _
      rw [run_guarded_skipped n b _ env gs h]
      exact ih

set_option maxRecDepth 100000 in
theorem directives_lib_hashclash_config_h :
    directives lib_hashclash_config_h =
      .ifndef includeGuard :: .define includeGuard "1" ::
        (guardedDefines exportedTable ++ [.endif]) := by
  decide!

theorem preprocess_eq_run_directives (env : Env) (src : List String) :
    preprocess env src =
      match run ⟨env, []⟩ (directives src) with
      | some ⟨env', []⟩ => some env'
      | _ => none := by
  unfold preprocess directives
  rw [run_filter_blank]

theorem run_guard_defined (g b : String) (rest : List Line) (env : Env)
    (hd : env.defined g = true) :
    run ⟨env, []⟩ (.ifndef g :: .define g b :: rest) = run ⟨env, [⟨true, false, false⟩]⟩ rest := by
  have hact : PPState.active ⟨env, []⟩ = true := rfl
  simp only [run, step, hact, hd, active_push, Bool.not_true, Bool.and_false]
  simp

theorem run_guard_undefined (g b : String) (rest : List Line) (env : Env)
    (hd : env.defined g = false) :
    run ⟨env, []⟩ (.ifndef g :: .define g b :: rest)
      = run ⟨env ++ [(g, b)], [⟨true, true, false⟩]⟩ rest := by
  have hact : PPState.active ⟨env, []⟩ = true := rfl
  have hv := value_none_of_not_defined hd
  simp only [run, step, hact, hd, hv, active_push, Bool.not_false, Bool.and_true]
  simp

theorem close_guard (e : Env) (g : Group) :
    (match (some ⟨e, [g]⟩ : Option PPState).bind (fun st' => run st' [.endif]) with
      | some ⟨env', []⟩ => some env'
      | _ => none) = some e := rfl

theorem included_of_defined {env : Env} (h : env.defined includeGuard = true) :
    included env = env := by
  unfold included; rw [if_pos h]

theorem included_of_undefined {env : Env} (h : env.defined includeGuard = false) :
    included env = Env.defineAll (env ++ [(includeGuard, "1")]) exportedTable := by
  unfold included; rw [if_neg (by rw [h]; decide)]

theorem preprocess_lib_hashclash_config_h (env : Env) :
    preprocess env lib_hashclash_config_h = some (included env) := by
  rw [preprocess_eq_run_directives, directives_lib_hashclash_config_h]
  cases hd : env.defined includeGuard with
  | true =>
      rw [run_guard_defined _ _ _ _ hd, run_append,
        run_guardedDefines_skipped _ _ _ (active_push _ _ _), included_of_defined hd]
      exact close_guard _ _
  | false =>
      rw [run_guard_undefined _ _ _ _ hd, run_append,
        run_guardedDefines_active _ _ _ (active_push _ _ _), included_of_undefined hd]
      exact close_guard _ _

theorem value_append_single (env : Env) (m b n : String) :
    Env.value (env ++ [(m, b)]) n =
      match env.value n with
      | some v => some v
      | none => if m = n then some b else none := by
  induction env with
  | nil => simp [Env.value]
  | cons p env ih =>
      obtain ⟨k, c⟩ := p
      by_cases hk : k = n
      · simp [Env.value, hk]
      · simp only [List.cons_append, Env.value, if_neg hk]
        exact ih

theorem value_defineIfUndefined_of_some (env : Env) (m b n v : String)
    (h : env.value n = some v) : (env.defineIfUndefined m b).value n = some v := by
  unfold Env.defineIfUndefined
  by_cases hd : env.defined m = true
  · rw [if_pos hd]; exact h
  · rw [if_neg hd, value_append_single, h]

theorem value_defineAll_of_some (tbl : Env) (env : Env) (n v : String)
    (h : env.value n = some v) : (Env.defineAll env tbl).value n = some v := by
  induction tbl generalizing env with
  | nil => exact h
  | cons p tbl ih =>
      obtain ⟨m, b⟩ := p
      exact ih _ (value_defineIfUndefined_of_some env m b n v h)

theorem defined_of_value_some {env : Env} {n v : String} (h : env.value n = some v) :
    env.defined n = true := by
  unfold Env.defined; rw [h]; rfl

theorem exists_value_of_defined {env : Env} {n : String} (h : env.defined n = true) :
    ∃ v, env.value n = some v := by
  unfold Env.defined at h
  cases hv : env.value n with
  | none => rw [hv] at h; simp at h
  | some v => exact ⟨v, rfl⟩

theorem defined_defineIfUndefined_self (env : Env) (m b : String) :
    (env.defineIfUndefined m b).defined m = true := by
  unfold Env.defineIfUndefined
  by_cases hd : env.defined m = true
  · rw [if_pos hd]; exact hd
  · rw [if_neg hd]
    have hn : env.value m = none := value_none_of_not_defined (by simpa using hd)
    apply defined_of_value_some (v := b)
    rw [value_append_single, hn]
    simp

theorem defined_defineAll_of_defined (tbl : Env) (env : Env) (n : String)
    (h : env.defined n = true) : (Env.defineAll env tbl).defined n = true := by
  obtain ⟨v, hv⟩ := exists_value_of_defined h
  exact defined_of_value_some (value_defineAll_of_some tbl env n v hv)

theorem defined_defineAll_of_mem (tbl : Env) (env : Env) (n b : String)
    (h : (n, b) ∈ tbl) : (Env.defineAll env tbl).defined n = true := by
  induction tbl generalizing env with
  | nil => cases h
  | cons p tbl ih =>
      obtain ⟨m, c⟩ := p
      rcases List.mem_cons.mp h with heq | hmem
      · have hm : m = n := by cases heq; rfl
        subst hm
        exact defined_defineAll_of_defined tbl _ m (defined_defineIfUndefined_self env m c)
      · exact ih _ hmem

theorem value_included_of_some (env : Env) (n v : String) (h : env.value n = some v) :
    (included env).value n = some v := by
  cases hd : env.defined includeGuard with
  | true => rw [included_of_defined hd]; exact h
  | false =>
      rw [included_of_undefined hd]
      apply value_defineAll_of_some
      rw [value_append_single, h]

theorem includeGuard_defined_included (env : Env) :
    (included env).defined includeGuard = true := by
  cases hd : env.defined includeGuard with
  | true => rw [included_of_defined hd]; exact hd
  | false =>
      rw [included_of_undefined hd]
      apply defined_defineAll_of_defined
      have hn := value_none_of_not_defined hd
      apply defined_of_value_some (v := "1")
      rw [value_append_single, hn]
      simp

theorem exported_defined_included (env : Env) (hd : env.defined includeGuard = false)
    (n : String) (h : config_h_macros.defined n = true) :
    (included env).defined (exported n) = true := by
  obtain ⟨v, hv⟩ := exists_value_of_defined h
  have hmem : (exported n, v) ∈ exportedTable :=
    List.mem_map.mpr ⟨(n, v), value_some_mem _ n v hv, rfl⟩
  rw [included_of_undefined hd]
  exact defined_defineAll_of_mem _ _ _ v hmem

/-- Including `lib/hashclash/config.h` where its include guard
`_LIB_HASHCLASH_CONFIG_H` is already defined leaves the macro table as it
was: the header takes effect once. -/
theorem lib_config_h_include_once (env : Env) (h : env.defined includeGuard = true) :
    preprocess env lib_hashclash_config_h = some env := by
  rw [preprocess_lib_hashclash_config_h, included_of_defined h]

theorem lib_config_h_include_once_witness :
    Env.defined [(includeGuard, "1")] includeGuard = true ∧
      preprocess [(includeGuard, "1")] lib_hashclash_config_h = some [(includeGuard, "1")] :=
  ⟨by decide, lib_config_h_include_once [(includeGuard, "1")] (by decide)⟩

/-- `lib/hashclash/config.h` can be included into any translation unit:
whatever macros are defined before, it is translated without error, every
macro defined before keeps its replacement text, the include guard is
defined afterwards, and, when the guard was not defined before, so is
`HASHCLASH_n` for every macro `n` of `config.h`. -/
theorem lib_config_h_include_anywhere (env : Env) :
    ∃ env', preprocess env lib_hashclash_config_h = some env' ∧
      (∀ n v, env.value n = some v → env'.value n = some v) ∧
      env'.defined includeGuard = true ∧
      (env.defined includeGuard = false →
        ∀ n, config_h_macros.defined n = true → env'.defined (exported n) = true) :=
  ⟨included env, preprocess_lib_hashclash_config_h env, value_included_of_some env,
    includeGuard_defined_included env, exported_defined_included env⟩

/-- Including `lib/hashclash/config.h` a second time changes nothing,
whatever the macro table was before the first inclusion. -/
theorem lib_config_h_include_twice (env : Env) :
    (preprocess env lib_hashclash_config_h).bind
        (fun env' => preprocess env' lib_hashclash_config_h)
      = preprocess env lib_hashclash_config_h := by
  rw [preprocess_lib_hashclash_config_h]
  show preprocess (included env) lib_hashclash_config_h = some (included env)
  rw [preprocess_lib_hashclash_config_h,
    included_of_defined (includeGuard_defined_included env)]

/-! ## The collision-search engine: trial and search -/

theorem holdsOn_eq_true_iff (sat : BitCondition → Bool → Bool → Bool) (width : Nat)
    (c : StepCondition) (w1 w2 : List Nat) :
    c.holdsOn sat width w1 w2 = true ↔
      ∀ i j, i < max w1.length w2.length → j < width →
        sat (c.cond i j) ((w1.getD i 0).testBit j) ((w2.getD i 0).testBit j) = true := by
  unfold StepCondition.holdsOn
  simp only [List.all_eq_true, List.mem_range]
  constructor
  · intro h i j hi hj
    exact h i hi j hj
  · intro h i hi j hj
    exact h i j hi hj

theorem simulate_allMatched (E : Engine) (m1 m2 a b : List Nat) :
    ∀ (todo k : Nat) (s1 s2 o1 o2 : List Nat),
      s1 = stateAfter E.target a m1 k → s2 = stateAfter E.target b m2 k →
      simulate E m1 m2 todo k s1 s2 = .allMatched o1 o2 →
      o1 = stateAfter E.target a m1 (k + todo) ∧
      o2 = stateAfter E.target b m2 (k + todo) ∧
      ∀ n, k ≤ n → n < k + todo →
        (E.path.getD n ⟨[]⟩).holdsOn E.sat E.target.wordWidth
          (stateAfter E.target a m1 (n + 1) ++ m1)
          (stateAfter E.target b m2 (n + 1) ++ m2) = true := by
  intro todo
  induction todo with
  | zero =>
      intro k s1 s2 o1 o2 h1 h2 h
      simp only [simulate, Simulation.allMatched.injEq] at h
      refine ⟨by rw [← h.1, h1]; rfl, by rw [← h.2, h2]; rfl, ?_⟩
      intro n hk hn
      omega
  | succ todo ih =>
      intro k s1 s2 o1 o2 h1 h2 h
      simp only [simulate] at h
      split at h
      · rename_i hc
        have e1 : E.target.round k s1 m1 = stateAfter E.target a m1 (k + 1) := by
          rw [h1]; rfl
        have e2 : E.target.round k s2 m2 = stateAfter E.target b m2 (k + 1) := by
          rw [h2]; rfl
        obtain ⟨r1, r2, r3⟩ := ih (k + 1) _ _ o1 o2 e1 e2 h
        refine ⟨by rw [r1]; congr 1; omega, by rw [r2]; congr 1; omega, ?_⟩
        intro n hk hn
        by_cases hkn : n = k
        · subst hkn
          rw [← e1, ← e2]; exact hc
        · exact r3 n (by omega) (by omega)
      · cases h

theorem runTrial_success (E : Engine) (t : MessageTemplate) (rng : RandomStream)
    (r : CollisionResult) (h : runTrial E t rng = .success r) :
    r.block2 = xorWords r.block1 E.seed.message ∧
      simulate E r.block1 r.block2 E.target.rounds 0 E.target.iv E.iv2
        = .allMatched r.out1 r.out2 := by
  unfold runTrial at h
  simp only at h
  split at h
  · rename_i o1 o2 hs
    simp only [TrialOutcome.success.injEq] at h
    subst h
    exact ⟨rfl, hs⟩
  · cases h
  · cases h

theorem searchLoop_found (E : Engine) (t : MessageTemplate) (workerCount : Nat)
    (sched : Nat → Nat) (r : CollisionResult) :
    ∀ (budget : Nat) (st : SearchState) (streams : Nat → RandomStream),
      (searchLoop E t workerCount sched budget st streams).1 = .found r →
      ∃ rng, runTrial E t rng = .success r := by
  intro budget
  induction budget with
  | zero =>
      intro st streams h
      simp [searchLoop] at h
  | succ budget ih =>
      intro st streams h
      simp only [searchLoop] at h
      split at h
      · rename_i r' hr
        simp only [SearchOutcome.found.injEq] at h
        subst h
        exact ⟨_, hr⟩
      · exact ih _ _ h
      · exact ih _ _ h

theorem search_found (E : Engine) (t : MessageTemplate) (workerCount budget : Nat)
    (streams : Nat → RandomStream) (sched : Nat → Nat) (r : CollisionResult)
    (h : (search E t workerCount budget streams sched).1 = .found r) :
    ∃ rng, runTrial E t rng = .success r := by
  unfold search at h
  split at h
  · simp at h
  · exact searchLoop_found E t workerCount sched r budget _ streams h

theorem getD_of_getElem? {α : Type} (l : List α) (k : Nat) (c d : α) (h : l[k]? = some c) :
    l.getD k d = c := by
  induction l generalizing k with
  | nil => simp at h
  | cons x l ih =>
      cases k with
      | zero => simp at h; simp [h]
      | succ k => simp at h; simpa using ih k h

theorem lt_length_of_getElem? {α : Type} (l : List α) (k : Nat) (c : α) (h : l[k]? = some c) :
    k < l.length := by
  induction l generalizing k with
  | nil => simp at h
  | cons x l ih =>
      cases k with
      | zero => simp
      | succ k => simp at h; simpa using ih k h

theorem draw_zero (rng : RandomStream) : draw 0 rng = [] := rfl

theorem runTrial_of_freeCount_zero (E : Engine) (t : MessageTemplate)
    (hfree : t.freeCount = 0) (rng rng' : RandomStream) :
    runTrial E t rng = runTrial E t rng' := by
  unfold runTrial
  rw [hfree, draw_zero, draw_zero]

theorem searchLoop_one (E : Engine) (t : MessageTemplate) (workerCount : Nat)
    (sched : Nat → Nat) (streams : Nat → RandomStream) (rng : RandomStream)
    (hfree : t.freeCount = 0) :
    searchLoop E t workerCount sched 1 ⟨0, 0, false⟩ streams =
      match runTrial E t rng with
      | .success r => (.found r, ⟨1, 0, true⟩)
      | .partialMatch d => (.exhausted, ⟨1, max 0 d, false⟩)
      | .failure => (.exhausted, ⟨1, 0, false⟩) := by
  simp only [searchLoop]
  rw [runTrial_of_freeCount_zero E t hfree (streams (sched 0 % workerCount)) rng]

/-- C3: a reported collision verifies.  When a trial, or a search of the
worker pool, produces the collision result `r` for a path with one step
condition per round, then running the target compression function again on
the two returned blocks gives, at every round `k`, tracked words (the
chaining words after round `k`, then the message words) that satisfy the
condition of the path's `k`-th step at every bit position, and the two
returned output chaining values are the ones so recomputed. -/
theorem collision_result_verifies (E : Engine) (t : MessageTemplate) (rng : RandomStream)
    (workerCount budget : Nat) (streams : Nat → RandomStream) (sched : Nat → Nat)
    (r : CollisionResult)
    (hp : E.path.length = E.target.rounds)
    (h : runTrial E t rng = .success r ∨
      (search E t workerCount budget streams sched).1 = .found r) :
    (∀ k c, E.path[k]? = some c →
      ∀ i j, i < max (trackedWords E.target E.target.iv r.block1 k).length
                (trackedWords E.target E.iv2 r.block2 k).length →
        j < E.target.wordWidth →
        E.sat (c.cond i j)
          (((trackedWords E.target E.target.iv r.block1 k).getD i 0).testBit j)
          (((trackedWords E.target E.iv2 r.block2 k).getD i 0).testBit j) = true) ∧
      r.out1 = compress E.target E.target.iv r.block1 ∧
      r.out2 = compress E.target E.iv2 r.block2 := by
  have hs : ∃ rng', runTrial E t rng' = .success r := by
    rcases h with h | h
    · exact ⟨rng, h⟩
    · exact search_found E t workerCount budget streams sched r h
  obtain ⟨rng', hr⟩ := hs
  obtain ⟨_, hsim⟩ := runTrial_success E t rng' r hr
  obtain ⟨ho1, ho2, hall⟩ :=
    simulate_allMatched E r.block1 r.block2 E.target.iv E.iv2 E.target.rounds 0
      E.target.iv E.iv2 r.out1 r.out2 rfl rfl hsim
  refine ⟨?_, by rw [ho1]; simp [compress], by rw [ho2]; simp [compress]⟩
  intro k c hk i j hi hj
  have hlt : k < E.target.rounds := hp ▸ lt_length_of_getElem? _ k c hk
  have hc := hall k (Nat.zero_le k) (by omega)
  rw [getD_of_getElem? _ k c _ hk] at hc
  exact (holdsOn_eq_true_iff _ _ _ _ _).mp hc i j hi hj

theorem collision_result_verifies_witness :
    toyEngine.path.length = toyEngine.target.rounds ∧
      runTrial toyEngine toyTemplate (fun _ => true) = .success toyResult ∧
      toyResult.out1 = compress toyEngine.target toyEngine.target.iv toyResult.block1 ∧
      toyResult.out2 = compress toyEngine.target toyEngine.iv2 toyResult.block2 :=
  ⟨by decide, by decide,
    (collision_result_verifies toyEngine toyTemplate (fun _ => true) 1 1
      (fun _ _ => true) (fun n => n) toyResult (by decide) (Or.inl (by decide))).2⟩

/-- C7: a search over a fully determined message with a budget of one
trial.  For a template without free bits and a pool of at least one worker,
`search` with a trial budget of 1 ends after exactly one trial, its outcome
is a found collision or `exhausted`, and outcome and final search state are
the same for every worker count, every random stream and every interleaving
of the workers. -/
theorem search_one_trial_deterministic (E : Engine) (t : MessageTemplate)
    (w₁ w₂ : Nat) (streams₁ streams₂ : Nat → RandomStream) (sched₁ sched₂ : Nat → Nat)
    (hfree : t.freeCount = 0) (h₁ : 0 < w₁) (h₂ : 0 < w₂) :
    (search E t w₁ 1 streams₁ sched₁).2.trials = 1 ∧
      ((∃ r, (search E t w₁ 1 streams₁ sched₁).1 = .found r) ∨
        (search E t w₁ 1 streams₁ sched₁).1 = .exhausted) ∧
      search E t w₁ 1 streams₁ sched₁ = search E t w₂ 1 streams₂ sched₂ := by
  have e₁ : search E t w₁ 1 streams₁ sched₁ =
      searchLoop E t w₁ sched₁ 1 ⟨0, 0, false⟩ streams₁ := by
    unfold search; rw [if_neg (by omega)]
  have e₂ : search E t w₂ 1 streams₂ sched₂ =
      searchLoop E t w₂ sched₂ 1 ⟨0, 0, false⟩ streams₂ := by
    unfold search; rw [if_neg (by omega)]
  rw [e₁, e₂, searchLoop_one E t w₁ sched₁ streams₁ (fun _ => false) hfree,
    searchLoop_one E t w₂ sched₂ streams₂ (fun _ => false) hfree]
  cases runTrial E t (fun _ => false) with
  | success r => exact ⟨rfl, Or.inl ⟨r, rfl⟩, rfl⟩
  | partialMatch d => exact ⟨rfl, Or.inr rfl, rfl⟩
  | failure => exact ⟨rfl, Or.inr rfl, rfl⟩

theorem search_one_trial_deterministic_witness :
    toyFixedTemplate.freeCount = 0 ∧ 0 < 1 ∧ 0 < 4 ∧
      (search toyEngine toyFixedTemplate 1 1 (fun _ _ => false) (fun n => n)).2.trials = 1 ∧
      search toyEngine toyFixedTemplate 1 1 (fun _ _ => false) (fun n => n) =
        search toyEngine toyFixedTemplate 4 1 (fun w i => (w + i) % 2 = 0) (fun n => 3 * n + 1) :=
  have h := search_one_trial_deterministic toyEngine toyFixedTemplate 1 4
    (fun _ _ => false) (fun w i => (w + i) % 2 = 0) (fun n => n) (fun n => 3 * n + 1)
    (by decide) (by decide) (by decide)
  ⟨by decide, by decide, by decide, h.1, h.2.2⟩

end HashClash
